import Mathlib

/-!
Verification of the SmartFoodSnap analysis-orchestration core.

The definitions below are a shallow embedding of the TypeScript source:

* `src/types.ts` — the data model (`MacroData`, `FoodItem`, `AnalysisResult`,
  `AppState`);
* `src/services/geminiService.ts` — the retry controller
  (`retryWithBackoff`), the model fallback chain inside `analyzeFoodImage`,
  `recalculateMacros` and `analyzeFoodText`;
* `src/App.tsx` — the session state machine (`resetApp`, `handleImageSelect`,
  `handleCorrectionSubmit`).

External effects are made explicit: the Gemini call becomes a function
`Request → Except GenError Response` supplied as a parameter (one per retry
attempt where the attempts are independent), `JSON.parse` over the
schema-constrained response text becomes a parameter
`String → Option AnalysisResult`, and thrown JS errors become the `GenError`
record carrying the optional numeric `status` and the `message` string that
the source inspects.  Numbers are rationals.  Functions that the source runs
for their side effects on React state are modelled as explicit state
transformers on a `Session` record, paired with a log of outbound
orchestrator calls where a claim needs to count them.
-/

/-- `src/types.ts` — `MacroData`: the four macro numbers. -/
structure MacroData where
  calories : ℚ
  protein : ℚ
  fat : ℚ
  carbs : ℚ
deriving DecidableEq, Repr

/-- `src/types.ts` — `FoodItem`. -/
structure FoodItem where
  name : String
  weightGrams : ℚ
  macros : MacroData
  confidence : ℚ
deriving DecidableEq, Repr

/-- `src/types.ts` — `AnalysisResult`; `modelUsed` is optional. -/
structure AnalysisResult where
  items : List FoodItem
  total : MacroData
  summary : String
  modelUsed : Option String := none
deriving DecidableEq, Repr

/-- `src/types.ts` — the `AppState` enum. -/
inductive AppState where
  | IDLE
  | ANALYZING_IMAGE
  | RESULT_VIEW
  | PROCESSING_CORRECTION
  | ERROR
deriving DecidableEq, Repr

/-- A thrown JS error as the service code inspects it: an optional numeric
`status` field and a `message` string.  `parseFailure` marks errors produced
by `JSON.parse` on a present-but-malformed response (a JS `SyntaxError`),
which carry no status code and whose message contains none of the status
substrings the source tests for. -/
structure GenError where
  status : Option Nat
  message : String
  parseFailure : Bool := false
deriving DecidableEq, Repr

/-- JS `s.includes(sub)` on strings. -/
def strIncludes (s sub : String) : Bool :=
  decide (sub.data <:+: s.data)

/-- The closed error taxonomy of the spec (§4.1). -/
inductive ErrorKind where
  | RATE_LIMITED
  | OVERLOADED
  | ACCESS_DENIED
  | NOT_FOUND
  | MALFORMED_OUTPUT
  | UNKNOWN
deriving DecidableEq, Repr

/-- The error classifier: structured status signals first, then the message
substrings the source falls back to, then the malformed-output marker;
anything else is `UNKNOWN`.  This mirrors exactly the signals tested at
`geminiService.ts` lines 57 and 116. -/
def classify (e : GenError) : ErrorKind :=
  if e.status = some 429 then .RATE_LIMITED
  else if e.status = some 503 then .OVERLOADED
  else if e.status = some 403 then .ACCESS_DENIED
  else if e.status = some 404 then .NOT_FOUND
  else if strIncludes e.message "429" then .RATE_LIMITED
  else if strIncludes e.message "403" then .ACCESS_DENIED
  else if strIncludes e.message "404" then .NOT_FOUND
  else if strIncludes e.message "PERMISSION_DENIED" then .ACCESS_DENIED
  else if e.parseFailure then .MALFORMED_OUTPUT
  else .UNKNOWN

/-- The retry condition of `retryWithBackoff` (`geminiService.ts` line 57):
`error.status === 429 || error.status === 503 || error.message?.includes('429')`.
(The `retries > 0` conjunct is handled by the recursion below.) -/
def isRetryable (e : GenError) : Bool :=
  e.status == some 429 || e.status == some 503 || strIncludes e.message "429"

/-- `retryWithBackoff` (`geminiService.ts` lines 52-64).  The wrapped
operation is modelled as `outcomes : Nat → Except GenError α` giving the
result of its `k`-th invocation; the embedding returns the final result
together with the total number of calls issued and the list of delays
(in ms) waited between consecutive calls. -/
def retryWithBackoff (outcomes : Nat → Except GenError α) :
    Nat → Nat → Nat → Except GenError α × Nat × List Nat
  | k, 0, _ =>
    match outcomes k with
    | .ok v => (.ok v, 1, [])
    | .error e => (.error e, 1, [])
  | k, retries + 1, delay =>
    match outcomes k with
    | .ok v => (.ok v, 1, [])
    | .error e =>
      if isRetryable e then
        let rest := retryWithBackoff outcomes (k + 1) retries (delay * 2)
        (rest.1, rest.2.1 + 1, delay :: rest.2.2)
      else
        (.error e, 1, [])

/-- Number of calls `retryWithBackoff` issues. -/
def retryCalls (outcomes : Nat → Except GenError α) (k retries delay : Nat) : Nat :=
  (retryWithBackoff outcomes k retries delay).2.1

/-- Delays `retryWithBackoff` waits between consecutive calls. -/
def retryDelays (outcomes : Nat → Except GenError α) (k retries delay : Nat) : List Nat :=
  (retryWithBackoff outcomes k retries delay).2.2

lemma retryCalls_le (outcomes : Nat → Except GenError α) :
    ∀ (k retries delay : Nat), retryCalls outcomes k retries delay ≤ retries + 1 := by
  intro k retries
  induction retries generalizing k with
  | zero =>
    intro delay
    unfold retryCalls retryWithBackoff
    cases outcomes k <;> simp
  | succ n ih =>
    intro delay
    unfold retryCalls retryWithBackoff
    cases outcomes k with
    | ok v => simp
    | error e =>
      by_cases h : isRetryable e
      · simpa [h] using Nat.succ_le_succ (ih (k + 1) (delay * 2))
      · simp [h]

lemma retryDelays_exists_range (outcomes : Nat → Except GenError α) :
    ∀ (k retries delay : Nat), ∃ m, retryDelays outcomes k retries delay =
      (List.range m).map (fun i => delay * 2 ^ i) := by
  intro k retries
  induction retries generalizing k with
  | zero =>
    intro delay
    refine ⟨0, ?_⟩
    unfold retryDelays retryWithBackoff
    cases outcomes k <;> simp
  | succ n ih =>
    intro delay
    unfold retryDelays retryWithBackoff
    cases outcomes k with
    | ok v => exact ⟨0, by simp⟩
    | error e =>
      by_cases h : isRetryable e
      · obtain ⟨m, hm⟩ := ih (k + 1) (delay * 2)
        refine ⟨m + 1, ?_⟩
        simp only [h, if_true]
        rw [List.range_succ_eq_map, List.map_cons, List.map_map]
        refine List.cons_eq_cons.mpr ⟨by simp, ?_⟩
        unfold retryDelays at hm
        rw [hm]
        apply List.map_congr_left
        intro i _
        simp only [Function.comp_apply, pow_succ]
        ring
      · exact ⟨0, by simp [h]⟩

lemma retryDelays_doubling (outcomes : Nat → Except GenError α)
    (k retries delay : Nat) : retryDelays outcomes k retries delay =
      (List.range (retryDelays outcomes k retries delay).length).map
        (fun i => delay * 2 ^ i) := by
  obtain ⟨m, hm⟩ := retryDelays_exists_range outcomes k retries delay
  rw [hm]
  simp

/-- `C2`: for every wrapped operation, `retryWithBackoff` issues at most
`retries + 1` total calls (the `maxAttempts` call budget), and the delays
between consecutive calls form the strictly doubling sequence
`delay, delay*2, delay*4, …` starting at the initial delay; under the default
policy (`retries = 3`, `delay = 1000`) against an operation that keeps
failing with a 429 rate-limit error, exactly 4 calls are issued and the
delays are 1000ms, 2000ms, 4000ms. -/
theorem retryWithBackoff_bounded_doubling (outcomes : Nat → Except GenError α)
    (k retries delay : Nat) :
    retryCalls outcomes k retries delay ≤ retries + 1 ∧
    retryDelays outcomes k retries delay =
      (List.range (retryDelays outcomes k retries delay).length).map
        (fun i => delay * 2 ^ i) ∧
    (retryWithBackoff (fun _ => (.error ⟨some 429, "rate limited", false⟩ :
        Except GenError Unit)) 0 3 1000).2 = (4, [1000, 2000, 4000]) := by
  refine ⟨retryCalls_le outcomes k retries delay,
    retryDelays_doubling outcomes k retries delay, ?_⟩
  decide

/-- The `contents` argument of `ai.models.generateContent`: either the
image-plus-instruction parts or a plain text prompt. -/
inductive ReqContents where
  | imageParts (image : String) (mimeType : String) (text : String)
  | textOnly (text : String)
deriving DecidableEq, Repr

/-- Identifier for the structured-output schema; the source always passes
`analysisResponseSchema` (`geminiService.ts` lines 35-47). -/
inductive SchemaId where
  | analysisResponse
deriving DecidableEq, Repr

/-- The `config` argument of `generateContent`. -/
structure GenConfig where
  responseMimeType : String
  responseSchema : SchemaId
deriving DecidableEq, Repr

/-- `configPart` (`geminiService.ts` lines 92-95): JSON mime type plus the
analysis response schema. -/
def configPart : GenConfig :=
  { responseMimeType := "application/json", responseSchema := .analysisResponse }

/-- A full `generateContent` request: model name, contents, config. -/
structure Request where
  model : String
  contents : ReqContents
  config : GenConfig
deriving DecidableEq, Repr

/-- A `generateContent` response as the source reads it: the optional
`response.text`. -/
structure Response where
  text : Option String
deriving DecidableEq, Repr

/-- `promptText` (`geminiService.ts` line 76): the image-analysis
instruction. -/
def promptText : String :=
  "Проанализируй это изображение еды. Если видишь упаковки или этикетки (например, \x27Zero Sugar\x27, \x27Diet\x27, \x270 калорий\x27), обязательно учитывай это при расчете. Определи каждое блюдо или ингредиент, оцени их вес в граммах и рассчитай КБЖУ (Калории, Белки, Жиры, Углеводы). Укажи степень уверенности (confidence) для каждого продукта от 0.0 до 1.0. Будь максимально точным. Верни результат в формате JSON. Используй русский язык для названий и описания."

/-- The request `analyzeFoodImage` sends to a given model: the image parts
(`contentPart`, lines 78-90) plus `configPart` — identical for both tiers. -/
def imageRequest (model base64Image mimeType : String) : Request :=
  { model := model,
    contents := .imageParts base64Image mimeType promptText,
    config := configPart }

/-- The `SyntaxError` thrown by `JSON.parse` on malformed response text: no
status code, a message free of the status substrings the source tests. -/
def parseError : GenError :=
  { status := none, message := "Unexpected token in JSON", parseFailure := true }

/-- The shared call shape `generateContent → response.text → JSON.parse`:
raises the call's own error, or `Error(emptyMsg)` when `response.text` is
falsy, or the parse error when the text does not parse; otherwise the parsed
result. -/
def callAndParse (parse : String → Option AnalysisResult)
    (env : Request → Except GenError Response) (req : Request)
    (emptyMsg : String) : Except GenError AnalysisResult :=
  match env req with
  | .error e => .error e
  | .ok resp =>
    match resp.text with
    | none => .error { status := none, message := emptyMsg, parseFailure := false }
    | some t =>
      match parse t with
      | none => .error parseError
      | some r => .ok r

/-- The fallback condition of `analyzeFoodImage` (`geminiService.ts` line
116): `error.status === 403 || error.status === 404 ||
error.message?.includes('403') || error.message?.includes('404') ||
error.message?.includes('PERMISSION_DENIED')`. -/
def isFallbackError (e : GenError) : Bool :=
  e.status == some 403 || e.status == some 404 || strIncludes e.message "403" ||
    strIncludes e.message "404" || strIncludes e.message "PERMISSION_DENIED"

/-- One attempt of the function `analyzeFoodImage` wraps in
`retryWithBackoff` (`geminiService.ts` lines 97-134): try
`gemini-3-pro-preview`; if that throws a 403/404/PERMISSION_DENIED failure,
call `gemini-2.5-flash` once with the same `contentPart` and `configPart`;
any other failure is rethrown.  Returns the outcome together with the list
of requests issued, in order. -/
def analyzeFoodImageAttempt (parse : String → Option AnalysisResult)
    (env : Request → Except GenError Response) (base64Image mimeType : String) :
    Except GenError AnalysisResult × List Request :=
  let proReq := imageRequest "gemini-3-pro-preview" base64Image mimeType
  let flashReq := imageRequest "gemini-2.5-flash" base64Image mimeType
  match callAndParse parse env proReq "No response from Gemini" with
  | .ok r => (.ok r, [proReq])
  | .error e =>
    if isFallbackError e then
      (callAndParse parse env flashReq "No response from Gemini (Flash fallback)",
       [proReq, flashReq])
    else
      (.error e, [proReq])

/-- `analyzeFoodImage` (`geminiService.ts` lines 71-135): the attempt above
run through `retryWithBackoff`; `envs k` is the inference capability as seen
by the `k`-th retry attempt. -/
def analyzeFoodImage (parse : String → Option AnalysisResult)
    (envs : Nat → Request → Except GenError Response)
    (base64Image mimeType : String) (retries delay : Nat) :
    Except GenError AnalysisResult × Nat × List Nat :=
  retryWithBackoff
    (fun k => (analyzeFoodImageAttempt parse (envs k) base64Image mimeType).1)
    0 retries delay

lemma isFallbackError_of_classify (e : GenError)
    (h : classify e = .ACCESS_DENIED ∨ classify e = .NOT_FOUND) :
    isFallbackError e = true := by
  unfold classify at h
  unfold isFallbackError
  split_ifs at h <;> simp_all [beq_iff_eq]

lemma no_retry_no_fallback_of_classify (e : GenError)
    (h : classify e = .MALFORMED_OUTPUT ∨ classify e = .UNKNOWN) :
    isRetryable e = false ∧ isFallbackError e = false := by
  unfold classify at h
  unfold isRetryable isFallbackError
  split_ifs at h <;> simp_all [beq_iff_eq]

lemma retryWithBackoff_of_ok (outcomes : Nat → Except GenError α)
    (k retries delay : Nat) (v : α) (h : outcomes k = .ok v) :
    retryWithBackoff outcomes k retries delay = (.ok v, 1, []) := by
  cases retries <;> simp [retryWithBackoff, h]

lemma retryWithBackoff_of_fatal (outcomes : Nat → Except GenError α)
    (k retries delay : Nat) (e : GenError) (h : outcomes k = .error e)
    (hr : isRetryable e = false) :
    retryWithBackoff outcomes k retries delay = (.error e, 1, []) := by
  cases retries <;> simp [retryWithBackoff, h, hr]

/-- `JSON.stringify` of a string value (quoting; escapes elided — the
serialized values in scope contain no quotes or backslashes). -/
def jsonStr (s : String) : String := "\"" ++ s ++ "\""

/-- Rendering of a numeric JSON value. -/
def numStr (q : ℚ) : String := toString q

/-- `JSON.stringify` of a `MacroData` value. -/
def serializeMacro (m : MacroData) : String :=
  "\x7b\"calories\":" ++ numStr m.calories ++ ",\"protein\":" ++ numStr m.protein ++
    ",\"fat\":" ++ numStr m.fat ++ ",\"carbs\":" ++ numStr m.carbs ++ "\x7d"

/-- `JSON.stringify` of a `FoodItem` value. -/
def serializeItem (it : FoodItem) : String :=
  "\x7b\"name\":" ++ jsonStr it.name ++ ",\"weightGrams\":" ++ numStr it.weightGrams ++
    ",\"macros\":" ++ serializeMacro it.macros ++ ",\"confidence\":" ++
    numStr it.confidence ++ "\x7d"

/-- `JSON.stringify(currentAnalysis)`: the full serialized prior result
(`modelUsed` is omitted when absent, as `JSON.stringify` drops `undefined`). -/
def serializeAnalysis (r : AnalysisResult) : String :=
  "\x7b\"items\":[" ++ String.intercalate "," (r.items.map serializeItem) ++
    "],\"total\":" ++ serializeMacro r.total ++ ",\"summary\":" ++ jsonStr r.summary ++
    (match r.modelUsed with
     | none => ""
     | some m => ",\"modelUsed\":" ++ jsonStr m) ++ "\x7d"

/-- The correction prompt of `recalculateMacros` (`geminiService.ts` lines
191-203), split at its two interpolation holes. -/
def recalcPromptHead : String :=
  "\n        Исходные данные анализа еды (JSON):\n        "

/-- The fragment of the correction prompt between the serialized prior
result and the quoted correction text. -/
def recalcPromptMid : String :=
  "\n\n        Корректировка от пользователя:\n        \""

/-- The fragment of the correction prompt after the correction text. -/
def recalcPromptTail : String :=
  "\"\n\n        Задание:\n        1. Пойми, что именно пользователь хочет изменить (вес, название, удалить блюдо, добавить блюдо).\n        2. Пересчитай КБЖУ для измененных позиций и итоговую сумму.\n        3. Верни обновленный JSON объект в том же формате, включая поле confidence (для новых блюд оцени уверенность сам, для старых оставь или измени если нужно).\n        4. В поле \x27summary\x27 напиши, что было изменено.\n      "

/-- The full correction prompt: the template literal embedding
`JSON.stringify(currentAnalysis)` and `userCorrection`. -/
def recalcPrompt (currentAnalysis : AnalysisResult) (userCorrection : String) : String :=
  recalcPromptHead ++ serializeAnalysis currentAnalysis ++ recalcPromptMid ++
    userCorrection ++ recalcPromptTail

/-- The request `recalculateMacros` sends: `gemini-2.5-flash`, the prompt as
plain contents, JSON mime type plus the analysis response schema. -/
def recalcRequest (currentAnalysis : AnalysisResult) (userCorrection : String) : Request :=
  { model := "gemini-2.5-flash",
    contents := .textOnly (recalcPrompt currentAnalysis userCorrection),
    config := configPart }

/-- One attempt of the function `recalculateMacros` wraps in
`retryWithBackoff` (`geminiService.ts` lines 189-222): call
`gemini-2.5-flash` with the correction prompt, parse the response; the catch
rewraps any failure as `new Error(error.message || "Recalculation failed")`,
losing the status code. -/
def recalculateMacrosAttempt (parse : String → Option AnalysisResult)
    (env : Request → Except GenError Response)
    (currentAnalysis : AnalysisResult) (userCorrection : String) :
    Except GenError AnalysisResult :=
  match callAndParse parse env (recalcRequest currentAnalysis userCorrection)
      "No response from Gemini" with
  | .ok r => .ok r
  | .error e =>
    .error { status := none,
             message := if e.message = "" then "Recalculation failed" else e.message,
             parseFailure := e.parseFailure }

/-- `recalculateMacros` (`geminiService.ts` lines 181-223): the attempt
above run through `retryWithBackoff`. -/
def recalculateMacros (parse : String → Option AnalysisResult)
    (envs : Nat → Request → Except GenError Response)
    (currentAnalysis : AnalysisResult) (userCorrection : String)
    (retries delay : Nat) : Except GenError AnalysisResult × Nat × List Nat :=
  retryWithBackoff
    (fun k => recalculateMacrosAttempt parse (envs k) currentAnalysis userCorrection)
    0 retries delay

/-- The text-analysis prompt of `analyzeFoodText` (`geminiService.ts` lines
572-578), split at its interpolation hole. -/
def textPromptHead : String :=
  "\n    Проанализируй этот текст: \""

/-- The fragment of the text-analysis prompt after the description. -/
def textPromptTail : String :=
  "\".\n    Пользователь описывает, что он съел.\n    Определи список блюд/продуктов, их вес (если не указан, оцени среднюю порцию) и рассчитай КБЖУ.\n    Верни результат в формате JSON, используя ту же структуру, что и для анализа фото.\n    Используй русский язык.\n  "

/-- The full text-analysis prompt embedding the user's description. -/
def textPrompt (text : String) : String :=
  textPromptHead ++ text ++ textPromptTail

/-- The request `analyzeFoodText` sends: `gemini-2.5-flash` with the text
prompt and the analysis config. -/
def textRequest (text : String) : Request :=
  { model := "gemini-2.5-flash",
    contents := .textOnly (textPrompt text),
    config := configPart }

/-- One attempt of the function `analyzeFoodText` wraps in
`retryWithBackoff` (`geminiService.ts` lines 585-599): call the flash model,
parse, stamp `modelUsed`; there is no catch, so failures propagate raw. -/
def analyzeFoodTextAttempt (parse : String → Option AnalysisResult)
    (env : Request → Except GenError Response) (text : String) :
    Except GenError AnalysisResult :=
  match callAndParse parse env (textRequest text) "No response from Gemini" with
  | .ok r => .ok { r with modelUsed := some "Gemini 2.5 Flash (Text)" }
  | .error e => .error e

/-- `analyzeFoodText` (`geminiService.ts` lines 567-600): the attempt above
run through `retryWithBackoff`. -/
def analyzeFoodText (parse : String → Option AnalysisResult)
    (envs : Nat → Request → Except GenError Response) (text : String)
    (retries delay : Nat) : Except GenError AnalysisResult × Nat × List Nat :=
  retryWithBackoff (fun k => analyzeFoodTextAttempt parse (envs k) text)
    0 retries delay

/-- JS `String.prototype.trim`: strip leading and trailing whitespace
(written over the character list so that it evaluates by kernel
reduction). -/
def jsTrim (s : String) : String :=
  String.mk (((s.data.dropWhile Char.isWhitespace).reverse.dropWhile
    Char.isWhitespace).reverse)

/-- The React state of `App.tsx` (lines 10-15) relevant to the session state
machine. -/
structure Session where
  appState : AppState
  selectedImage : Option String
  analysisResult : Option AnalysisResult
  correctionText : String
  errorMessage : Option String
  loadingMessage : String
deriving DecidableEq, Repr

/-- The initial React state (`App.tsx` lines 10-15). -/
def initialSession : Session :=
  { appState := .IDLE, selectedImage := none, analysisResult := none,
    correctionText := "", errorMessage := none, loadingMessage := "" }

/-- The user-facing message set when the initial analysis fails
(`App.tsx` line 79). -/
def analyzeFailMessage : String :=
  "Не удалось проанализировать изображение. Попробуйте другое фото."

/-- The user-facing message set when a correction fails (`App.tsx` line 98). -/
def correctionFailMessage : String :=
  "Не удалось пересчитать данные. Попробуйте еще раз."

/-- `resetApp` (`App.tsx` lines 31-37): back to `IDLE`, clearing the image,
the result, the correction text and the error. -/
def resetApp (s : Session) : Session :=
  { s with appState := .IDLE, selectedImage := none, analysisResult := none,
           correctionText := "", errorMessage := none }

/-- `handleImageSelect` (`App.tsx` lines 60-84), with the FileReader result
(`dataUrl`) and the analysis outcome made explicit: enter `ANALYZING_IMAGE`,
clear the error, store the image; on success store the result and show
`RESULT_VIEW`; on failure set the fixed user-facing message and go to
`ERROR` (the caught error itself is discarded). -/
def handleImageSelect (analyze : String → String → Except GenError AnalysisResult)
    (s : Session) (dataUrl mimeType : String) : Session :=
  let s1 := { s with appState := .ANALYZING_IMAGE,
                     loadingMessage := "Изучаю фото и распознаю продукты...",
                     errorMessage := none }
  let s2 := { s1 with selectedImage := some dataUrl }
  let base64Data := (dataUrl.splitOn ",").getD 1 ""
  match analyze base64Data mimeType with
  | .ok result => { s2 with analysisResult := some result, appState := .RESULT_VIEW }
  | .error _ => { s2 with errorMessage := some analyzeFailMessage, appState := .ERROR }

/-- `handleCorrectionSubmit` (`App.tsx` lines 86-101): guard on empty
trimmed correction text or absent result (return with no call and no state
change); otherwise enter `PROCESSING_CORRECTION` and call
`recalculateMacros(analysisResult, correctionText)`; on success replace the
result, clear the text and return to `RESULT_VIEW`; on failure keep the old
result, set the fixed error message and still return to `RESULT_VIEW`.
The second component logs the `(priorResult, correctionText)` payloads sent
to the orchestrator. -/
def handleCorrectionSubmit
    (recalc : AnalysisResult → String → Except GenError AnalysisResult)
    (s : Session) : Session × List (AnalysisResult × String) :=
  if jsTrim s.correctionText = "" then (s, [])
  else
    match s.analysisResult with
    | none => (s, [])
    | some prior =>
      let s1 := { s with appState := .PROCESSING_CORRECTION,
                         loadingMessage := "Пересчитываю КБЖУ с учетом правок..." }
      match recalc prior s.correctionText with
      | .ok newResult =>
        ({ s1 with analysisResult := some newResult, correctionText := "",
                   appState := .RESULT_VIEW },
         [(prior, s.correctionText)])
      | .error _ =>
        ({ s1 with errorMessage := some correctionFailMessage,
                   appState := .RESULT_VIEW },
         [(prior, s.correctionText)])

/-- A substring occurrence: `sub` occurs inside `s`. -/
def strContainsSub (s sub : String) : Prop :=
  ∃ pre post, s = pre ++ sub ++ post

/-- A sample analysis result for concrete instantiations. -/
def sampleResult : AnalysisResult :=
  { items := [{ name := "Гречка", weightGrams := 150,
                macros := { calories := 165, protein := 6, fat := 2, carbs := 32 },
                confidence := 9/10 }],
    total := { calories := 165, protein := 6, fat := 2, carbs := 32 },
    summary := "Гречка, 165 ккал" }

/-- `C3`: when the `gemini-3-pro-preview` call fails with a failure
classified `ACCESS_DENIED` or `NOT_FOUND` (a 403/404/PERMISSION_DENIED
signal), the fallback chain invokes `gemini-2.5-flash` exactly once — the
request log is precisely the pro request followed by one flash request —
and the flash request carries identical contents and config. -/
theorem fallback_next_tier_once (parse : String → Option AnalysisResult)
    (env : Request → Except GenError Response) (base64Image mimeType : String)
    (e : GenError)
    (henv : env (imageRequest "gemini-3-pro-preview" base64Image mimeType) = .error e)
    (hkind : classify e = .ACCESS_DENIED ∨ classify e = .NOT_FOUND) :
    (analyzeFoodImageAttempt parse env base64Image mimeType).2 =
      [imageRequest "gemini-3-pro-preview" base64Image mimeType,
       imageRequest "gemini-2.5-flash" base64Image mimeType] ∧
    (imageRequest "gemini-2.5-flash" base64Image mimeType).contents =
      (imageRequest "gemini-3-pro-preview" base64Image mimeType).contents ∧
    (imageRequest "gemini-2.5-flash" base64Image mimeType).config =
      (imageRequest "gemini-3-pro-preview" base64Image mimeType).config := by
  have hfb := isFallbackError_of_classify e hkind
  refine ⟨?_, rfl, rfl⟩
  simp [analyzeFoodImageAttempt, callAndParse, henv, hfb]

/-- The environment used to witness the fallback theorem: the pro tier is
permission-denied, the flash tier answers. -/
def envPro403 : Request → Except GenError Response := fun r =>
  if r.model = "gemini-3-pro-preview" then
    .error { status := some 403, message := "PERMISSION_DENIED", parseFailure := false }
  else
    .ok { text := some "payload" }

theorem fallback_next_tier_once_witness :
    (analyzeFoodImageAttempt (fun _ => some sampleResult) envPro403 "img" "image/jpeg").2 =
      [imageRequest "gemini-3-pro-preview" "img" "image/jpeg",
       imageRequest "gemini-2.5-flash" "img" "image/jpeg"] ∧
    (imageRequest "gemini-2.5-flash" "img" "image/jpeg").contents =
      (imageRequest "gemini-3-pro-preview" "img" "image/jpeg").contents ∧
    (imageRequest "gemini-2.5-flash" "img" "image/jpeg").config =
      (imageRequest "gemini-3-pro-preview" "img" "image/jpeg").config :=
  fallback_next_tier_once (fun _ => some sampleResult) envPro403 "img" "image/jpeg"
    { status := some 403, message := "PERMISSION_DENIED", parseFailure := false }
    (by simp [envPro403, imageRequest]) (Or.inl (by decide))

/-- `C4`: a failure classified `MALFORMED_OUTPUT` or `UNKNOWN` stops
everything: no fallback tier is attempted (the request log holds only the
pro request), no retry occurs (one call, no delays), and the failure
propagates to the caller.  The first part covers a thrown failure with no
429/503/403/404 signal; the second covers a present response whose text
fails to parse. -/
theorem malformed_unknown_stop (parse : String → Option AnalysisResult)
    (envs : Nat → Request → Except GenError Response)
    (base64Image mimeType : String) (retries delay : Nat) :
    (∀ e : GenError, classify e = .MALFORMED_OUTPUT ∨ classify e = .UNKNOWN →
      envs 0 (imageRequest "gemini-3-pro-preview" base64Image mimeType) = .error e →
      analyzeFoodImageAttempt parse (envs 0) base64Image mimeType =
        (.error e, [imageRequest "gemini-3-pro-preview" base64Image mimeType]) ∧
      analyzeFoodImage parse envs base64Image mimeType retries delay =
        (.error e, 1, [])) ∧
    (∀ t : String,
      envs 0 (imageRequest "gemini-3-pro-preview" base64Image mimeType) =
        .ok { text := some t } →
      parse t = none →
      classify parseError = .MALFORMED_OUTPUT ∧
      analyzeFoodImageAttempt parse (envs 0) base64Image mimeType =
        (.error parseError, [imageRequest "gemini-3-pro-preview" base64Image mimeType]) ∧
      analyzeFoodImage parse envs base64Image mimeType retries delay =
        (.error parseError, 1, [])) := by
  constructor
  · intro e hkind henv
    obtain ⟨hr, hfb⟩ := no_retry_no_fallback_of_classify e hkind
    have hatt : analyzeFoodImageAttempt parse (envs 0) base64Image mimeType =
        (.error e, [imageRequest "gemini-3-pro-preview" base64Image mimeType]) := by
      simp [analyzeFoodImageAttempt, callAndParse, henv, hfb]
    refine ⟨hatt, ?_⟩
    unfold analyzeFoodImage
    exact retryWithBackoff_of_fatal _ 0 retries delay e (by simp [hatt]) hr
  · intro t henv hparse
    have hfb : isFallbackError parseError = false := by decide
    have hr : isRetryable parseError = false := by decide
    have hatt : analyzeFoodImageAttempt parse (envs 0) base64Image mimeType =
        (.error parseError, [imageRequest "gemini-3-pro-preview" base64Image mimeType]) := by
      simp [analyzeFoodImageAttempt, callAndParse, henv, hparse, hfb]
    refine ⟨by decide, hatt, ?_⟩
    unfold analyzeFoodImage
    exact retryWithBackoff_of_fatal _ 0 retries delay parseError (by simp [hatt]) hr

theorem malformed_unknown_stop_witness :
    analyzeFoodImage (fun _ => none)
        (fun _ _ => .error { status := none, message := "network down", parseFailure := false })
        "img" "image/jpeg" 3 1000 =
      (.error { status := none, message := "network down", parseFailure := false }, 1, []) ∧
    analyzeFoodImage (fun _ => none) (fun _ _ => .ok { text := some "oops" })
        "img" "image/jpeg" 3 1000 =
      (.error parseError, 1, []) :=
  ⟨((malformed_unknown_stop (fun _ => none)
      (fun _ _ => .error { status := none, message := "network down", parseFailure := false })
      "img" "image/jpeg" 3 1000).1
      { status := none, message := "network down", parseFailure := false }
      (Or.inr (by decide)) rfl).2,
   ((malformed_unknown_stop (fun _ => none) (fun _ _ => .ok { text := some "oops" })
      "img" "image/jpeg" 3 1000).2 "oops" rfl rfl).2.2⟩

/-- A raw payload whose single item carries confidence 1.4 (= 7/5),
outside [0.0, 1.0]. -/
def overConfidenceResult : AnalysisResult :=
  { items := [{ name := "Кола", weightGrams := 330,
                macros := { calories := 139, protein := 0, fat := 0, carbs := 35 },
                confidence := 7/5 }],
    total := { calories := 139, protein := 0, fat := 0, carbs := 35 },
    summary := "Кола, 139 ккал" }

/-- A parse function returning the over-confidence payload for the response
text "raw". -/
def overParse : String → Option AnalysisResult :=
  fun t => if t = "raw" then some overConfidenceResult else none

/-- An environment answering every request with the response text "raw". -/
def overEnv : Request → Except GenError Response :=
  fun _ => .ok { text := some "raw" }

/-- `C5` counterexample: on a raw payload with confidence 1.4, both
`analyzeFoodImage`'s response handling (lines 107-110) and
`recalculateMacros`'s (lines 214-217) return the parsed result with
confidence still 7/5 = 1.4 — there is no Result Validator and no clamping
to 1.0. -/
theorem confidence_not_clamped_cex :
    (analyzeFoodImageAttempt overParse overEnv "img" "image/jpeg").1 =
      .ok overConfidenceResult ∧
    recalculateMacrosAttempt overParse overEnv overConfidenceResult "без сахара" =
      .ok overConfidenceResult ∧
    overConfidenceResult.items.map FoodItem.confidence = [7/5] ∧
    ¬ ((7 : ℚ)/5 ≤ 1) ∧ ((7 : ℚ)/5 ≠ 1) := by
  refine ⟨rfl, rfl, rfl, by norm_num, by norm_num⟩

/-- `C5` amended: the response handling passes the parsed payload through
unchanged — a confidence outside [0.0, 1.0] is neither rejected nor clamped;
the `AnalysisResult` is returned exactly as parsed. -/
theorem confidence_passthrough (parse : String → Option AnalysisResult)
    (env1 env2 : Request → Except GenError Response)
    (base64Image mimeType t1 t2 : String) (r1 r2 : AnalysisResult)
    (currentAnalysis : AnalysisResult) (userCorrection : String)
    (henv1 : env1 (imageRequest "gemini-3-pro-preview" base64Image mimeType) =
      .ok { text := some t1 })
    (hp1 : parse t1 = some r1)
    (henv2 : env2 (recalcRequest currentAnalysis userCorrection) =
      .ok { text := some t2 })
    (hp2 : parse t2 = some r2) :
    (analyzeFoodImageAttempt parse env1 base64Image mimeType).1 = .ok r1 ∧
    recalculateMacrosAttempt parse env2 currentAnalysis userCorrection = .ok r2 := by
  constructor
  · simp [analyzeFoodImageAttempt, callAndParse, henv1, hp1]
  · simp [recalculateMacrosAttempt, callAndParse, henv2, hp2]

theorem confidence_passthrough_witness :
    (analyzeFoodImageAttempt overParse overEnv "img" "image/jpeg").1 =
      .ok overConfidenceResult ∧
    recalculateMacrosAttempt overParse overEnv sampleResult "стакан колы" =
      .ok overConfidenceResult :=
  confidence_passthrough overParse overEnv overEnv "img" "image/jpeg" "raw" "raw"
    overConfidenceResult overConfidenceResult sampleResult "стакан колы"
    rfl rfl rfl rfl

/-- `C8`: `recalculateMacros` builds its prompt by embedding the full
serialized prior result and the correction text, and its outcome is the
parsed response wholesale — a brand-new `AnalysisResult`, not a mutation of
the prior one (the prior value is read only to build the prompt). -/
theorem recalculateMacros_frame (parse : String → Option AnalysisResult)
    (env : Request → Except GenError Response)
    (currentAnalysis : AnalysisResult) (userCorrection t : String)
    (r : AnalysisResult)
    (henv : env (recalcRequest currentAnalysis userCorrection) =
      .ok { text := some t })
    (hparse : parse t = some r) :
    strContainsSub (recalcPrompt currentAnalysis userCorrection)
      (serializeAnalysis currentAnalysis) ∧
    strContainsSub (recalcPrompt currentAnalysis userCorrection) userCorrection ∧
    recalculateMacrosAttempt parse env currentAnalysis userCorrection = .ok r := by
  refine ⟨⟨recalcPromptHead,
           recalcPromptMid ++ userCorrection ++ recalcPromptTail, ?_⟩,
          ⟨recalcPromptHead ++ serializeAnalysis currentAnalysis ++ recalcPromptMid,
           recalcPromptTail, ?_⟩, ?_⟩
  · simp [recalcPrompt, String.append_assoc]
  · simp [recalcPrompt, String.append_assoc]
  · simp [recalculateMacrosAttempt, callAndParse, henv, hparse]

/-- An environment answering the witness recalculation request. -/
def recalcWitnessEnv : Request → Except GenError Response :=
  fun _ => .ok { text := some "fixed" }

/-- A parse function for the witness recalculation response. -/
def recalcWitnessParse : String → Option AnalysisResult :=
  fun t => if t = "fixed" then some overConfidenceResult else none

theorem recalculateMacros_frame_witness :
    strContainsSub (recalcPrompt sampleResult "риса 200г")
      (serializeAnalysis sampleResult) ∧
    strContainsSub (recalcPrompt sampleResult "риса 200г") "риса 200г" ∧
    recalculateMacrosAttempt recalcWitnessParse recalcWitnessEnv sampleResult
      "риса 200г" = .ok overConfidenceResult :=
  recalculateMacros_frame recalcWitnessParse recalcWitnessEnv sampleResult
    "риса 200г" "fixed" overConfidenceResult rfl rfl

/-- A parse function returning a one-item payload for the response text
"resp". -/
def textCexParse : String → Option AnalysisResult :=
  fun t => if t = "resp" then some sampleResult else none

/-- Environments (one per retry attempt) answering every request with the
response text "resp". -/
def textCexEnv : Nat → Request → Except GenError Response :=
  fun _ _ => .ok { text := some "resp" }

/-- `C9` counterexample: `analyzeFoodText ""` (empty description) with a
model response containing one item neither raises `MALFORMED_OUTPUT` nor
returns an empty `items` sequence — it returns the parsed payload with its
non-empty item list; the code does not special-case the empty description. -/
theorem analyzeFoodText_empty_cex :
    analyzeFoodText textCexParse textCexEnv "" 3 1000 =
      (.ok { sampleResult with modelUsed := some "Gemini 2.5 Flash (Text)" }, 1, []) ∧
    ({ sampleResult with modelUsed := some "Gemini 2.5 Flash (Text)" } :
      AnalysisResult).items ≠ [] := by
  refine ⟨rfl, by simp [sampleResult]⟩

/-- `C9` amended: `analyzeFoodText("")` is well-defined but not
special-cased: it issues one ordinary text-analysis request embedding the
empty description; a response that parses is returned wholesale (its `items`
may be non-empty) with `modelUsed` stamped, and a non-retryable failure of
the call propagates unchanged — including failures classified `UNKNOWN`. -/
theorem analyzeFoodText_empty_passthrough (parse : String → Option AnalysisResult)
    (envs : Nat → Request → Except GenError Response) (retries delay : Nat) :
    (∀ (t : String) (r : AnalysisResult),
      envs 0 (textRequest "") = .ok { text := some t } → parse t = some r →
      analyzeFoodText parse envs "" retries delay =
        (.ok { r with modelUsed := some "Gemini 2.5 Flash (Text)" }, 1, [])) ∧
    (∀ e : GenError, envs 0 (textRequest "") = .error e → isRetryable e = false →
      analyzeFoodText parse envs "" retries delay = (.error e, 1, [])) := by
  constructor
  · intro t r henv hparse
    unfold analyzeFoodText
    exact retryWithBackoff_of_ok _ 0 retries delay _
      (by simp [analyzeFoodTextAttempt, callAndParse, henv, hparse])
  · intro e henv hr
    unfold analyzeFoodText
    exact retryWithBackoff_of_fatal _ 0 retries delay e
      (by simp [analyzeFoodTextAttempt, callAndParse, henv]) hr

/-- Environments failing every request with a status-less network error. -/
def textFailEnv : Nat → Request → Except GenError Response :=
  fun _ _ => .error { status := none, message := "network down", parseFailure := false }

theorem analyzeFoodText_empty_passthrough_witness :
    analyzeFoodText textCexParse textCexEnv "" 3 1000 =
      (.ok { sampleResult with modelUsed := some "Gemini 2.5 Flash (Text)" }, 1, []) ∧
    analyzeFoodText textCexParse textFailEnv "" 3 1000 =
      (.error { status := none, message := "network down", parseFailure := false },
       1, []) :=
  ⟨(analyzeFoodText_empty_passthrough textCexParse textCexEnv 3 1000).1 "resp"
      sampleResult rfl rfl,
   (analyzeFoodText_empty_passthrough textCexParse textFailEnv 3 1000).2
      { status := none, message := "network down", parseFailure := false }
      rfl (by decide)⟩

/-- An analysis operation failing with a 503 overload. -/
def failAnalyze503 : String → String → Except GenError AnalysisResult :=
  fun _ _ => .error { status := some 503, message := "Service Unavailable", parseFailure := false }

/-- An analysis operation failing with a status-less network error. -/
def failAnalyzeNet : String → String → Except GenError AnalysisResult :=
  fun _ _ => .error { status := none, message := "TypeError: Failed to fetch", parseFailure := false }

/-- `C6` counterexample: two different analysis failures leave the session
in exactly the same state — the stored message is the fixed user-facing
string, which does not contain the technical detail, so the raw technical
detail is not preserved anywhere in the session state. -/
theorem imageError_detail_lost_cex :
    handleImageSelect failAnalyze503 initialSession "data:image/png;base64,abc" "image/png" =
      handleImageSelect failAnalyzeNet initialSession "data:image/png;base64,abc" "image/png" ∧
    (handleImageSelect failAnalyze503 initialSession "data:image/png;base64,abc"
        "image/png").errorMessage = some analyzeFailMessage ∧
    strIncludes analyzeFailMessage "Service Unavailable" = false ∧
    ({ status := some 503, message := "Service Unavailable", parseFailure := false } :
        GenError) ≠
      { status := none, message := "TypeError: Failed to fetch", parseFailure := false } := by
  refine ⟨rfl, rfl, by decide, by decide⟩

/-- `C6` amended: from a submit-image intent, success stores the returned
result and moves to `RESULT_VIEW`; failure moves to `ERROR` and stores only
the fixed user-facing message — the raw technical detail of the failure is
discarded, not preserved. -/
theorem handleImageSelect_transitions
    (analyze : String → String → Except GenError AnalysisResult)
    (s : Session) (dataUrl mimeType : String) :
    (∀ r : AnalysisResult,
      analyze ((dataUrl.splitOn ",").getD 1 "") mimeType = .ok r →
      (handleImageSelect analyze s dataUrl mimeType).appState = .RESULT_VIEW ∧
      (handleImageSelect analyze s dataUrl mimeType).analysisResult = some r) ∧
    (∀ e : GenError,
      analyze ((dataUrl.splitOn ",").getD 1 "") mimeType = .error e →
      (handleImageSelect analyze s dataUrl mimeType).appState = .ERROR ∧
      (handleImageSelect analyze s dataUrl mimeType).errorMessage =
        some analyzeFailMessage ∧
      (handleImageSelect analyze s dataUrl mimeType).analysisResult =
        s.analysisResult) := by
  constructor
  · intro r h
    simp only [List.getD_eq_getElem?_getD] at h
    constructor <;> simp [handleImageSelect, h]
  · intro e h
    simp only [List.getD_eq_getElem?_getD] at h
    refine ⟨?_, ?_, ?_⟩ <;> simp [handleImageSelect, h]

/-- An analysis operation that succeeds with the sample result. -/
def okAnalyze : String → String → Except GenError AnalysisResult :=
  fun _ _ => .ok sampleResult

theorem handleImageSelect_transitions_witness :
    ((handleImageSelect okAnalyze initialSession "data:image/png;base64,abc"
        "image/png").appState = AppState.RESULT_VIEW ∧
      (handleImageSelect okAnalyze initialSession "data:image/png;base64,abc"
        "image/png").analysisResult = some sampleResult) ∧
    ((handleImageSelect failAnalyze503 initialSession "data:image/png;base64,abc"
        "image/png").appState = AppState.ERROR ∧
      (handleImageSelect failAnalyze503 initialSession "data:image/png;base64,abc"
        "image/png").errorMessage = some analyzeFailMessage ∧
      (handleImageSelect failAnalyze503 initialSession "data:image/png;base64,abc"
        "image/png").analysisResult = initialSession.analysisResult) :=
  ⟨(handleImageSelect_transitions okAnalyze initialSession "data:image/png;base64,abc"
      "image/png").1 sampleResult rfl,
   (handleImageSelect_transitions failAnalyze503 initialSession "data:image/png;base64,abc"
      "image/png").2
      { status := some 503, message := "Service Unavailable", parseFailure := false } rfl⟩

/-- `C1`: from a `RESULT_VIEW` session holding a valid prior result, a
submitted text correction whose recalculate call fails — with any failure —
leaves the state machine in `RESULT_VIEW` with the previously stored
`AnalysisResult` unchanged and the error message populated. -/
theorem correction_failure_keeps_result
    (recalc : AnalysisResult → String → Except GenError AnalysisResult)
    (s : Session) (r : AnalysisResult) (e : GenError)
    (hstate : s.appState = .RESULT_VIEW)
    (hres : s.analysisResult = some r)
    (htext : ¬ jsTrim s.correctionText = "")
    (hfail : recalc r s.correctionText = .error e) :
    (handleCorrectionSubmit recalc s).1.appState = .RESULT_VIEW ∧
    (handleCorrectionSubmit recalc s).1.analysisResult = some r ∧
    (handleCorrectionSubmit recalc s).1.errorMessage = some correctionFailMessage := by
  refine ⟨?_, ?_, ?_⟩ <;> simp [handleCorrectionSubmit, htext, hres, hfail]

/-- A `RESULT_VIEW` session holding the sample result and a pending
correction text. -/
def rvSession : Session :=
  { appState := .RESULT_VIEW, selectedImage := some "data:image/png;base64,abc",
    analysisResult := some sampleResult, correctionText := "риса 200г",
    errorMessage := none, loadingMessage := "" }

/-- A recalculation that fails with a 503 overload (retries exhausted). -/
def failRecalc503 : AnalysisResult → String → Except GenError AnalysisResult :=
  fun _ _ => .error { status := some 503, message := "overloaded", parseFailure := false }

theorem correction_failure_keeps_result_witness :
    (handleCorrectionSubmit failRecalc503 rvSession).1.appState = AppState.RESULT_VIEW ∧
    (handleCorrectionSubmit failRecalc503 rvSession).1.analysisResult =
      some sampleResult ∧
    (handleCorrectionSubmit failRecalc503 rvSession).1.errorMessage =
      some correctionFailMessage :=
  correction_failure_keeps_result failRecalc503 rvSession sampleResult
    { status := some 503, message := "overloaded", parseFailure := false }
    rfl rfl (by decide) rfl

/-- `C7`: `resetApp` transitions every session to `IDLE` and clears all
session data — the stored result, the selected image, the pending correction
text and the last error all return to their initial absent/empty values (so
in particular this holds from every non-IDLE lifecycle state). -/
theorem resetApp_clears (s : Session) :
    (resetApp s).appState = .IDLE ∧
    (resetApp s).selectedImage = none ∧
    (resetApp s).analysisResult = none ∧
    (resetApp s).correctionText = "" ∧
    (resetApp s).errorMessage = none := by
  refine ⟨rfl, rfl, rfl, rfl, rfl⟩

/-- `C10`: when the pending correction text is empty or whitespace-only, or
no current result is present, `handleCorrectionSubmit` makes no orchestrator
call (the payload log is empty) and leaves the session unchanged. -/
theorem correction_guard_noop
    (recalc : AnalysisResult → String → Except GenError AnalysisResult)
    (s : Session)
    (h : jsTrim s.correctionText = "" ∨ s.analysisResult = none) :
    handleCorrectionSubmit recalc s = (s, []) := by
  unfold handleCorrectionSubmit
  rcases h with h | h
  · simp [h]
  · by_cases ht : jsTrim s.correctionText = ""
    · simp [ht]
    · simp [ht, h]

/-- A `RESULT_VIEW` session whose pending correction text is
whitespace-only. -/
def wsSession : Session :=
  { appState := .RESULT_VIEW, selectedImage := some "data:image/png;base64,abc",
    analysisResult := some sampleResult, correctionText := "   ",
    errorMessage := none, loadingMessage := "" }

theorem correction_guard_noop_witness :
    handleCorrectionSubmit failRecalc503 wsSession = (wsSession, []) :=
  correction_guard_noop failRecalc503 wsSession (Or.inl (by decide))
